import Mathlib

/-!
# Thermo: a shallow embedding of `main.go`

The program is a small server-driven thermostat page built on `jfyne/live`.
Its state is a `*ThermoModel` stored in the socket's assigns; handlers fetch
that pointer (or allocate a default model), update the pointed-to struct and
return the pointer.  The embedding keeps the pointer structure explicit: a
heap of `ThermoModel` cells, addresses into it, and handlers as functions from
a heap and a socket to an outcome (final heap, result, broadcasts, output).

`float32` is modelled by its IEEE-754 binary32 bit pattern, with addition
computed exactly on integers in units of `2^-149` and rounded to nearest,
ties to even.
-/

namespace Thermo

/-! ## float32 -/

/-- A Go `float32`, held as its IEEE-754 binary32 bit pattern. -/
structure Float32 where
  bits : Nat
  deriving DecidableEq, Repr

namespace Float32

/-- Sign bit. -/
def sign (x : Float32) : Bool := (x.bits / 2 ^ 31) % 2 = 1

/-- Biased exponent field (8 bits). -/
def expField (x : Float32) : Nat := (x.bits / 2 ^ 23) % 256

/-- Fraction field (23 bits). -/
def frac (x : Float32) : Nat := x.bits % 2 ^ 23

def isNaN (x : Float32) : Bool := x.expField = 255 && x.frac ≠ 0

def isInf (x : Float32) : Bool := x.expField = 255 && x.frac = 0

/-- Magnitude of a finite value as an integer count of `2^-149`. -/
def mag (x : Float32) : Nat :=
  if x.expField = 0 then x.frac else (2 ^ 23 + x.frac) * 2 ^ (x.expField - 1)

/-- Signed value of a finite float as an integer count of `2^-149`. -/
def toUnits (x : Float32) : Int :=
  if x.sign then - (x.mag : Int) else (x.mag : Int)

/-- Exact rational value of a finite float. -/
def toRat (x : Float32) : ℚ := (x.toUnits : ℚ) / 2 ^ 149

/-- Position of the highest set bit (`0` for `0` and `1`), by bounded descent. -/
def log2Fuel : Nat → Nat → Nat
  | 0, _ => 0
  | fuel + 1, n => if n < 2 then 0 else log2Fuel fuel (n / 2) + 1

/-- Nearest integer to `n / d`, ties to even. -/
def roundNE (n d : Nat) : Nat :=
  let q := n / d
  let r := n % d
  if 2 * r < d then q
  else if d < 2 * r then q + 1
  else if q % 2 = 0 then q else q + 1

def signBit (neg : Bool) : Nat := if neg then 2 ^ 31 else 0

def infinity (neg : Bool) : Float32 := ⟨signBit neg + 255 * 2 ^ 23⟩

def quietNaN : Float32 := ⟨0x7FC00000⟩

/-- Bit pattern of the float whose magnitude is exactly `m` units of `2^-149`
(`m` must be representable); magnitudes beyond the largest finite value give
infinity. -/
def encodeExact (neg : Bool) (m : Nat) : Float32 :=
  if m < 2 ^ 23 then ⟨signBit neg + m⟩
  else
    let e := log2Fuel 512 m - 23
    if 254 ≤ e then infinity neg
    else ⟨signBit neg + (e + 1) * 2 ^ 23 + (m / 2 ^ e - 2 ^ 23)⟩

/-- Round the magnitude `n / d` (in units of `2^-149`) to binary32, to nearest
with ties to even. -/
def roundMag (neg : Bool) (n d : Nat) : Float32 :=
  let q := n / d
  if q < 2 ^ 24 then encodeExact neg (roundNE n d)
  else
    let k := log2Fuel 512 q - 23
    encodeExact neg (roundNE n (d * 2 ^ k) * 2 ^ k)

/-- Conversion of the exact constant `num / den` (negated when `neg`) to
`float32`, as the compiler does for an untyped constant. -/
def ofRatio (neg : Bool) (num den : Nat) : Float32 :=
  roundMag neg (num * 2 ^ 149) den

/-- A NaN operand is returned with its quiet bit set. -/
def quiet (x : Float32) : Float32 :=
  if (x.bits / 2 ^ 22) % 2 = 1 then x else ⟨x.bits + 2 ^ 22⟩

/-- IEEE-754 addition, round to nearest even. -/
def add (x y : Float32) : Float32 :=
  if x.isNaN then quiet x
  else if y.isNaN then quiet y
  else if x.isInf then
    if y.isInf && (x.sign != y.sign) then quietNaN else x
  else if y.isInf then y
  else
    let s := x.toUnits + y.toUnits
    if s = 0 then
      -- an exact zero sum is +0 unless both operands are negative (−0 + −0)
      ⟨signBit (x.sign && y.sign)⟩
    else roundMag (decide (s < 0)) s.natAbs 1

/-- Negation flips the sign bit. -/
def neg (x : Float32) : Float32 :=
  if x.sign then ⟨x.bits - 2 ^ 31⟩ else ⟨x.bits + 2 ^ 31⟩

/-- IEEE-754 subtraction: `x - y` is `x + (-y)`; a NaN operand is propagated
as it is. -/
def sub (x y : Float32) : Float32 :=
  if x.isNaN then quiet x
  else if y.isNaN then quiet y
  else add x (neg y)

/-- Left-pad a decimal numeral with zeros to six digits. -/
def pad6 (n : Nat) : String :=
  let d := toString n
  String.mk (List.replicate (6 - d.length) '0') ++ d

/-- The `%f` verb of `fmt` on a `float32`: six decimals, correctly rounded from
the exact binary value. -/
def format (x : Float32) : String :=
  if x.isNaN then "NaN"
  else if x.isInf then (if x.sign then "-Inf" else "+Inf")
  else
    let k := roundNE (x.mag * 10 ^ 6) (2 ^ 149)
    (if x.sign then "-" else "") ++ toString (k / 10 ^ 6) ++ "." ++ pad6 (k % 10 ^ 6)

end Float32

/-! ## Data model -/

/-- Go `int` on a 64-bit target: two's-complement wrap-around. -/
def wrapInt64 (x : Int) : Int := (x + 2 ^ 63) % 2 ^ 64 - 2 ^ 63

structure LiveReload where
  Revision : Int
  deriving DecidableEq, Repr

structure ThermoModel where
  Name : String
  Temperature : Float32
  Status : String
  LiveReload : Thermo.LiveReload
  Time : String
  deriving DecidableEq, Repr

/-- The dynamic values an `interface{}` holds in this program: the untyped
nil, a `string`, a `*ThermoModel` (an address), or a value of any other
dynamic type. -/
inductive Value where
  | nil
  | str (s : String)
  | thermoPtr (addr : Nat)
  | other (tag : Nat)
  deriving DecidableEq, Repr

/-- The `ThermoModel` structs allocated so far; an address is an index.  An
address outside the heap stands for the nil pointer. -/
abbrev Heap := List ThermoModel

/-- A `live.Socket`, as far as the program reads it: the value `Assigns()`
yields. -/
structure Socket where
  assigns : Value
  deriving DecidableEq, Repr

/-- The request carried by a handler's context: its URL query pairs. -/
structure Context where
  query : List (String × String)
  deriving DecidableEq, Repr

/-- The call `live.Request(ctx).URL.Query().Get(key)`: first value of the key,
or the empty string. -/
def Context.queryGet (ctx : Context) (key : String) : String :=
  match ctx.query.lookup key with
  | some v => v
  | none => ""

/-- The event parameters `live.Params`, read through `p.String(key)` and
`p.Float32(key)`. -/
structure Params where
  getString : String → String
  getFloat32 : String → Float32

inductive Panic where
  | typeAssertion
  | nilDereference
  deriving DecidableEq, Repr

/-- How a handler call ends: it returns `(interface{}, error)`, or panics. -/
inductive Result where
  | returned (v : Value) (err : Option String)
  | panicked (p : Panic)
  deriving DecidableEq, Repr

/-- Everything a handler call leaves behind. -/
structure Outcome where
  heap : Heap
  result : Result
  broadcasts : List (String × Value)
  printed : List String
  deriving DecidableEq, Repr

/-! ## Handlers -/

/-- The constant `0.1` at type `float32`. -/
def tenth : Float32 := Float32.ofRatio false 1 10

/-- The constant `19.5` at type `float32`. -/
def defaultTemperature : Float32 := Float32.ofRatio false 39 2

/-- The struct literal of `NewThermoModel` (`Time` is left at its zero value). -/
def defaultModel (ctx : Context) : ThermoModel :=
  { Name := ctx.queryGet "name"
    Temperature := defaultTemperature
    Status := ""
    LiveReload := ⟨1⟩
    Time := "" }

/-- Get-or-init: the pointer stored in the socket when it is a `*ThermoModel`,
otherwise a pointer to a newly allocated default model. -/
def NewThermoModel (ctx : Context) (h : Heap) (s : Socket) : Heap × Nat :=
  match s.assigns with
  | .thermoPtr a => (h, a)
  | _ => (h ++ [defaultModel ctx], h.length)

def thermoMount (ctx : Context) (h : Heap) (s : Socket) : Outcome :=
  let (h1, a) := NewThermoModel ctx h s
  ⟨h1, .returned (.thermoPtr a) none, [], ["Mounting application"]⟩

def tempUp (ctx : Context) (h : Heap) (s : Socket) (_p : Params) : Outcome :=
  let (h1, a) := NewThermoModel ctx h s
  match h1[a]? with
  | none => ⟨h1, .panicked .nilDereference, [], []⟩
  | some m =>
    ⟨h1.set a { m with Temperature := m.Temperature.add tenth },
      .returned (.thermoPtr a) none, [], []⟩

def tempDown (ctx : Context) (h : Heap) (s : Socket) (_p : Params) : Outcome :=
  let (h1, a) := NewThermoModel ctx h s
  match h1[a]? with
  | none => ⟨h1, .panicked .nilDereference, [], []⟩
  | some m =>
    ⟨h1.set a { m with Temperature := m.Temperature.sub tenth },
      .returned (.thermoPtr a) none, [], []⟩

def tempChange (ctx : Context) (h : Heap) (s : Socket) (p : Params) : Outcome :=
  let (h1, a) := NewThermoModel ctx h s
  match h1[a]? with
  | none => ⟨h1, .panicked .nilDereference, [], []⟩
  | some m =>
    let t0 := m.Temperature
    let m1 := { m with Temperature := m.Temperature.add (p.getFloat32 "temperature") }
    ⟨h1.set a m1, .returned (.thermoPtr a) none,
      [("status", .str (m1.Name ++ ": temperature change from " ++ t0.format ++ " to "
          ++ m1.Temperature.format))], []⟩

def saveEvent (ctx : Context) (h : Heap) (s : Socket) (p : Params) : Outcome :=
  let (h1, a) := NewThermoModel ctx h s
  let message := p.getString "message"
  match h1[a]? with
  | none => ⟨h1, .panicked .nilDereference, [], []⟩
  | some m =>
    ⟨h1, .returned (.thermoPtr a) none, [("status", .str (m.Name ++ ": " ++ message))], []⟩

/-- The function literal registered with `HandleSelf("reload", ...)`. -/
def reloadSelf (ctx : Context) (h : Heap) (s : Socket) (_d : Value) : Outcome :=
  let (h1, a) := NewThermoModel ctx h s
  match h1[a]? with
  | none => ⟨h1, .panicked .nilDereference, [], []⟩
  | some m =>
    ⟨h1.set a { m with LiveReload := ⟨wrapInt64 (m.LiveReload.Revision + 1)⟩ },
      .returned (.thermoPtr a) none, [], []⟩

/-- The function literal registered with `HandleSelf("status", ...)`. -/
def statusSelf (ctx : Context) (h : Heap) (s : Socket) (d : Value) : Outcome :=
  let (h1, a) := NewThermoModel ctx h s
  match d with
  | .str v =>
    match h1[a]? with
    | none => ⟨h1, .panicked .nilDereference, [], []⟩
    | some m => ⟨h1.set a { m with Status := v }, .returned (.thermoPtr a) none, [], []⟩
  | _ => ⟨h1, .panicked .typeAssertion, [], []⟩

/-- The function literal registered with `HandleSelf("time", ...)`. -/
def timeSelf (ctx : Context) (h : Heap) (s : Socket) (d : Value) : Outcome :=
  let (h1, a) := NewThermoModel ctx h s
  match d with
  | .str v =>
    match h1[a]? with
    | none => ⟨h1, .panicked .nilDereference, [], []⟩
    | some m => ⟨h1.set a { m with Time := v }, .returned (.thermoPtr a) none, [], []⟩
  | _ => ⟨h1, .panicked .typeAssertion, [], []⟩

abbrev EventHandler := Context → Heap → Socket → Params → Outcome

abbrev SelfHandler := Context → Heap → Socket → Value → Outcome

/-- The `HandleEvent` registrations of `main`. -/
def eventHandlers : List (String × EventHandler) :=
  [("temp-up", tempUp), ("temp-down", tempDown), ("temp-change", tempChange),
   ("save", saveEvent)]

/-- The `HandleSelf` registrations of `main`. -/
def selfHandlers : List (String × SelfHandler) :=
  [("reload", reloadSelf), ("status", statusSelf), ("time", timeSelf)]

/-- The Snapshot a socket holds: the struct its assigns point at, if any. -/
def snapshot (h : Heap) (s : Socket) : Option ThermoModel :=
  match s.assigns with
  | .thermoPtr a => h[a]?
  | _ => none

/-- The Snapshot a handler returned: the struct behind the returned pointer. -/
def Outcome.model (o : Outcome) : Option ThermoModel :=
  match o.result with
  | .returned (.thermoPtr a) _ => o.heap[a]?
  | _ => none

/-- A handler call is a failure when it does not return a value with a nil
error. -/
def Outcome.failed (o : Outcome) : Prop := ∀ v, o.result ≠ .returned v none

/-! ## Publishers -/

/-- What a publisher goroutine does, step by step. -/
inductive Effect where
  | sleep (ns : Nat)
  | broadcast (topic : String) (payload : Value)
  deriving DecidableEq, Repr

/-- The duration `time.Second`, in nanoseconds. -/
def second : Nat := 1000000000

/-- The method `(*ReloadEngine).Start`: the bodies of the goroutines one call
launches. -/
def ReloadEngine.Start : List (List Effect) :=
  [[.sleep (3 * second), .broadcast "reload" .nil]]

/-- The clock goroutine of `main`, unrolled once per formatted time stamp that
`time.Now().Format(time.RFC1123)` yields. -/
def clockLoop : List String → List Effect
  | [] => []
  | t :: rest => .broadcast "time" (.str t) :: .sleep (1 * second) :: clockLoop rest

/-- Run a goroutine body from time `now` (nanoseconds); the `k`-th sleep lasts
its duration plus the `k`-th entry of `late` (a sleep lasts at least its
duration).  The result lists the broadcasts with the time of each. -/
def runFrom (now : Nat) (late : List Nat) : List Effect → List (Nat × String × Value)
  | [] => []
  | .sleep d :: rest => runFrom (now + d + late.headD 0) late.tail rest
  | .broadcast t d :: rest => (now, t, d) :: runFrom now late rest

/-- A `(topic, payload)` pair some call to `Broadcast` in the program passes:
by an event handler, a self handler, the mount handler, the goroutine of
`ReloadEngine.Start`, or the clock goroutine. -/
def Published (t : String) (d : Value) : Prop :=
  (∃ name f ctx h s p, (name, f) ∈ eventHandlers ∧ (t, d) ∈ (f ctx h s p).broadcasts) ∨
  (∃ topic f ctx h s d0, (topic, f) ∈ selfHandlers ∧ (t, d) ∈ (f ctx h s d0).broadcasts) ∨
  (∃ ctx h s, (t, d) ∈ (thermoMount ctx h s).broadcasts) ∨
  (∃ body, body ∈ ReloadEngine.Start ∧ Effect.broadcast t d ∈ body) ∨
  (∃ stamps, Effect.broadcast t d ∈ clockLoop stamps)

/-! ## Session loop -/

/-- An event in a session's inbox. -/
inductive Event where
  | client (name : String) (p : Params)
  | self (topic : String) (payload : Value)

/-- A session: the heap its handlers run on and its socket. -/
structure Session where
  heap : Heap
  socket : Socket

/-- Resolve the event's handler among the registrations of `main` and call
it. -/
def dispatch (ctx : Context) (h : Heap) (s : Socket) : Event → Option Outcome
  | .client name p => (eventHandlers.lookup name).map fun f => f ctx h s p
  | .self topic d => (selfHandlers.lookup topic).map fun f => f ctx h s d

/-- Modelled from the spec: the step of the session actor's `Run` loop (the
`live` library, not part of the repository's source).  It resolves the
handler, invokes it, and stores the returned Snapshot as current; an unknown
event name or a failed invocation leaves the current Snapshot in place. -/
def Session.process (ctx : Context) (st : Session) (ev : Event) : Session :=
  match dispatch ctx st.heap st.socket ev with
  | none => st
  | some o =>
    match o.result with
    | .returned v none => ⟨o.heap, ⟨v⟩⟩
    | _ => ⟨o.heap, st.socket⟩

/-- Modelled from the spec: mounting a session (the `live` library, not part
of the repository's source) runs the registered mount handler on a socket
without assigns and stores what it returns. -/
def Session.mount (ctx : Context) : Session :=
  let o := thermoMount ctx [] ⟨.nil⟩
  match o.result with
  | .returned v none => ⟨o.heap, ⟨v⟩⟩
  | _ => ⟨o.heap, ⟨.nil⟩⟩

/-- Modelled from the spec: the session processes its events in order. -/
def Session.run (ctx : Context) (st : Session) (evs : List Event) : Session :=
  evs.foldl (Session.process ctx) st

/-- Number of `reload` self-messages in a sequence of events. -/
def reloadCount : List Event → Nat
  | [] => 0
  | .self topic _ :: rest => (if topic = "reload" then 1 else 0) + reloadCount rest
  | .client _ _ :: rest => reloadCount rest

/-- Payload of the last `status` self-message with a string payload, or
`dflt` when there is none. -/
def lastStatus (dflt : String) : List Event → String
  | [] => dflt
  | .self topic (.str v) :: rest => lastStatus (if topic = "status" then v else dflt) rest
  | _ :: rest => lastStatus dflt rest

/-- Every `status` and `time` self-message of the sequence carries a string. -/
def stringPayloads : List Event → Prop
  | [] => True
  | .self topic d :: rest =>
    ((topic = "status" ∨ topic = "time") → ∃ v, d = .str v) ∧ stringPayloads rest
  | .client _ _ :: rest => stringPayloads rest

/-! ## Basic facts -/

theorem defaultTemperature_bits : defaultTemperature = ⟨0x419C0000⟩ := by
  set_option maxRecDepth 100000 in decide

theorem tenth_bits : tenth = ⟨0x3DCCCCCD⟩ := by
  set_option maxRecDepth 100000 in decide

theorem newThermoModel_ptr (ctx : Context) (h : Heap) (a : Nat) :
    NewThermoModel ctx h ⟨.thermoPtr a⟩ = (h, a) := rfl

theorem newThermoModel_fresh (ctx : Context) (h : Heap) (s : Socket)
    (hs : ∀ a, s.assigns ≠ .thermoPtr a) :
    NewThermoModel ctx h s = (h ++ [defaultModel ctx], h.length) := by
  unfold NewThermoModel
  split
  · next a heq => exact absurd heq (hs a)
  · rfl

theorem newThermoModel_cases (ctx : Context) (h : Heap) (s : Socket) :
    (∃ a, s.assigns = .thermoPtr a ∧ NewThermoModel ctx h s = (h, a)) ∨
    ((∀ a, s.assigns ≠ .thermoPtr a) ∧
      NewThermoModel ctx h s = (h ++ [defaultModel ctx], h.length)) := by
  by_cases hs : ∃ a, s.assigns = .thermoPtr a
  · obtain ⟨a, ha⟩ := hs
    left
    refine ⟨a, ha, ?_⟩
    unfold NewThermoModel
    rw [ha]
  · right
    have hs2 : ∀ a, s.assigns ≠ .thermoPtr a := fun a ha => hs ⟨a, ha⟩
    exact ⟨hs2, newThermoModel_fresh ctx h s hs2⟩

theorem getElem?_append_length {α : Type} (h : List α) (x : α) (t : List α) :
    (h ++ x :: t)[h.length]? = some x := by
  rw [List.getElem?_append_right (Nat.le_refl _)]
  simp

theorem defaultTemperature_toRat : defaultTemperature.toRat = 39 / 2 := by
  have hu : defaultTemperature.toUnits = 10223616 * 2 ^ 130 := by
    rw [defaultTemperature_bits]
    set_option maxRecDepth 100000 in decide
  rw [Float32.toRat, hu]
  norm_num

/-! ## What each handler does, by case -/

theorem tempUp_some (ctx : Context) (h : Heap) (s : Socket) (p : Params) (m : ThermoModel)
    (hm : (NewThermoModel ctx h s).1[(NewThermoModel ctx h s).2]? = some m) :
    tempUp ctx h s p =
      ⟨(NewThermoModel ctx h s).1.set (NewThermoModel ctx h s).2
          { m with Temperature := m.Temperature.add tenth },
        .returned (.thermoPtr (NewThermoModel ctx h s).2) none, [], []⟩ := by
  unfold tempUp
  generalize NewThermoModel ctx h s = r at hm
  obtain ⟨h1, a⟩ := r
  simp only at hm ⊢
  rw [hm]

theorem tempDown_some (ctx : Context) (h : Heap) (s : Socket) (p : Params) (m : ThermoModel)
    (hm : (NewThermoModel ctx h s).1[(NewThermoModel ctx h s).2]? = some m) :
    tempDown ctx h s p =
      ⟨(NewThermoModel ctx h s).1.set (NewThermoModel ctx h s).2
          { m with Temperature := m.Temperature.sub tenth },
        .returned (.thermoPtr (NewThermoModel ctx h s).2) none, [], []⟩ := by
  unfold tempDown
  generalize NewThermoModel ctx h s = r at hm
  obtain ⟨h1, a⟩ := r
  simp only at hm ⊢
  rw [hm]

theorem tempChange_some (ctx : Context) (h : Heap) (s : Socket) (p : Params)
    (m : ThermoModel)
    (hm : (NewThermoModel ctx h s).1[(NewThermoModel ctx h s).2]? = some m) :
    tempChange ctx h s p =
      ⟨(NewThermoModel ctx h s).1.set (NewThermoModel ctx h s).2
          { m with Temperature := m.Temperature.add (p.getFloat32 "temperature") },
        .returned (.thermoPtr (NewThermoModel ctx h s).2) none,
        [("status", .str (m.Name ++ ": temperature change from " ++ m.Temperature.format
            ++ " to " ++ (m.Temperature.add (p.getFloat32 "temperature")).format))], []⟩ := by
  unfold tempChange
  generalize NewThermoModel ctx h s = r at hm
  obtain ⟨h1, a⟩ := r
  simp only at hm ⊢
  rw [hm]

theorem saveEvent_some (ctx : Context) (h : Heap) (s : Socket) (p : Params) (m : ThermoModel)
    (hm : (NewThermoModel ctx h s).1[(NewThermoModel ctx h s).2]? = some m) :
    saveEvent ctx h s p =
      ⟨(NewThermoModel ctx h s).1, .returned (.thermoPtr (NewThermoModel ctx h s).2) none,
        [("status", .str (m.Name ++ ": " ++ p.getString "message"))], []⟩ := by
  unfold saveEvent
  generalize NewThermoModel ctx h s = r at hm
  obtain ⟨h1, a⟩ := r
  simp only at hm ⊢
  rw [hm]

theorem reloadSelf_some (ctx : Context) (h : Heap) (s : Socket) (d : Value) (m : ThermoModel)
    (hm : (NewThermoModel ctx h s).1[(NewThermoModel ctx h s).2]? = some m) :
    reloadSelf ctx h s d =
      ⟨(NewThermoModel ctx h s).1.set (NewThermoModel ctx h s).2
          { m with LiveReload := ⟨wrapInt64 (m.LiveReload.Revision + 1)⟩ },
        .returned (.thermoPtr (NewThermoModel ctx h s).2) none, [], []⟩ := by
  unfold reloadSelf
  generalize NewThermoModel ctx h s = r at hm
  obtain ⟨h1, a⟩ := r
  simp only at hm ⊢
  rw [hm]

theorem statusSelf_some (ctx : Context) (h : Heap) (s : Socket) (v : String) (m : ThermoModel)
    (hm : (NewThermoModel ctx h s).1[(NewThermoModel ctx h s).2]? = some m) :
    statusSelf ctx h s (.str v) =
      ⟨(NewThermoModel ctx h s).1.set (NewThermoModel ctx h s).2 { m with Status := v },
        .returned (.thermoPtr (NewThermoModel ctx h s).2) none, [], []⟩ := by
  unfold statusSelf
  generalize NewThermoModel ctx h s = r at hm
  obtain ⟨h1, a⟩ := r
  simp only at hm ⊢
  rw [hm]

theorem timeSelf_some (ctx : Context) (h : Heap) (s : Socket) (v : String) (m : ThermoModel)
    (hm : (NewThermoModel ctx h s).1[(NewThermoModel ctx h s).2]? = some m) :
    timeSelf ctx h s (.str v) =
      ⟨(NewThermoModel ctx h s).1.set (NewThermoModel ctx h s).2 { m with Time := v },
        .returned (.thermoPtr (NewThermoModel ctx h s).2) none, [], []⟩ := by
  unfold timeSelf
  generalize NewThermoModel ctx h s = r at hm
  obtain ⟨h1, a⟩ := r
  simp only at hm ⊢
  rw [hm]

theorem tempUp_none (ctx : Context) (h : Heap) (s : Socket) (p : Params)
    (hm : (NewThermoModel ctx h s).1[(NewThermoModel ctx h s).2]? = none) :
    tempUp ctx h s p = ⟨(NewThermoModel ctx h s).1, .panicked .nilDereference, [], []⟩ := by
  unfold tempUp
  generalize NewThermoModel ctx h s = r at hm
  obtain ⟨h1, a⟩ := r
  simp only at hm ⊢
  rw [hm]

theorem tempDown_none (ctx : Context) (h : Heap) (s : Socket) (p : Params)
    (hm : (NewThermoModel ctx h s).1[(NewThermoModel ctx h s).2]? = none) :
    tempDown ctx h s p = ⟨(NewThermoModel ctx h s).1, .panicked .nilDereference, [], []⟩ := by
  unfold tempDown
  generalize NewThermoModel ctx h s = r at hm
  obtain ⟨h1, a⟩ := r
  simp only at hm ⊢
  rw [hm]

theorem tempChange_none (ctx : Context) (h : Heap) (s : Socket) (p : Params)
    (hm : (NewThermoModel ctx h s).1[(NewThermoModel ctx h s).2]? = none) :
    tempChange ctx h s p =
      ⟨(NewThermoModel ctx h s).1, .panicked .nilDereference, [], []⟩ := by
  unfold tempChange
  generalize NewThermoModel ctx h s = r at hm
  obtain ⟨h1, a⟩ := r
  simp only at hm ⊢
  rw [hm]

theorem saveEvent_none (ctx : Context) (h : Heap) (s : Socket) (p : Params)
    (hm : (NewThermoModel ctx h s).1[(NewThermoModel ctx h s).2]? = none) :
    saveEvent ctx h s p = ⟨(NewThermoModel ctx h s).1, .panicked .nilDereference, [], []⟩ := by
  unfold saveEvent
  generalize NewThermoModel ctx h s = r at hm
  obtain ⟨h1, a⟩ := r
  simp only at hm ⊢
  rw [hm]

theorem reloadSelf_none (ctx : Context) (h : Heap) (s : Socket) (d : Value)
    (hm : (NewThermoModel ctx h s).1[(NewThermoModel ctx h s).2]? = none) :
    reloadSelf ctx h s d =
      ⟨(NewThermoModel ctx h s).1, .panicked .nilDereference, [], []⟩ := by
  unfold reloadSelf
  generalize NewThermoModel ctx h s = r at hm
  obtain ⟨h1, a⟩ := r
  simp only at hm ⊢
  rw [hm]

theorem statusSelf_none (ctx : Context) (h : Heap) (s : Socket) (v : String)
    (hm : (NewThermoModel ctx h s).1[(NewThermoModel ctx h s).2]? = none) :
    statusSelf ctx h s (.str v) =
      ⟨(NewThermoModel ctx h s).1, .panicked .nilDereference, [], []⟩ := by
  unfold statusSelf
  generalize NewThermoModel ctx h s = r at hm
  obtain ⟨h1, a⟩ := r
  simp only at hm ⊢
  rw [hm]

theorem timeSelf_none (ctx : Context) (h : Heap) (s : Socket) (v : String)
    (hm : (NewThermoModel ctx h s).1[(NewThermoModel ctx h s).2]? = none) :
    timeSelf ctx h s (.str v) =
      ⟨(NewThermoModel ctx h s).1, .panicked .nilDereference, [], []⟩ := by
  unfold timeSelf
  generalize NewThermoModel ctx h s = r at hm
  obtain ⟨h1, a⟩ := r
  simp only at hm ⊢
  rw [hm]

theorem statusSelf_not_string (ctx : Context) (h : Heap) (s : Socket) (d : Value)
    (hd : ∀ v, d ≠ .str v) :
    statusSelf ctx h s d =
      ⟨(NewThermoModel ctx h s).1, .panicked .typeAssertion, [], []⟩ := by
  unfold statusSelf
  generalize NewThermoModel ctx h s = r
  obtain ⟨h1, a⟩ := r
  cases d with
  | str v => exact absurd rfl (hd v)
  | nil => rfl
  | thermoPtr b => rfl
  | other t => rfl

theorem timeSelf_not_string (ctx : Context) (h : Heap) (s : Socket) (d : Value)
    (hd : ∀ v, d ≠ .str v) :
    timeSelf ctx h s d =
      ⟨(NewThermoModel ctx h s).1, .panicked .typeAssertion, [], []⟩ := by
  unfold timeSelf
  generalize NewThermoModel ctx h s = r
  obtain ⟨h1, a⟩ := r
  cases d with
  | str v => exact absurd rfl (hd v)
  | nil => rfl
  | thermoPtr b => rfl
  | other t => rfl

/-- Get-or-init never disturbs the structs that exist, nor what the socket
holds. -/
theorem newThermoModel_frame (ctx : Context) (h : Heap) (s : Socket) :
    h <+: (NewThermoModel ctx h s).1 ∧
      snapshot (NewThermoModel ctx h s).1 s = snapshot h s := by
  rcases newThermoModel_cases ctx h s with ⟨a, ha, h1⟩ | ⟨hs, h1⟩
  · rw [h1]
    exact ⟨List.prefix_refl h, rfl⟩
  · rw [h1]
    refine ⟨List.prefix_append h _, ?_⟩
    unfold snapshot
    split
    · next a heq => exact absurd heq (hs a)
    · rfl

theorem getElem?_set_of_some {α : Type} (l : List α) (a : Nat) (x y : α)
    (hx : l[a]? = some x) : (l.set a y)[a]? = some y := by
  have hlt : a < l.length := by
    rcases Nat.lt_or_ge a l.length with hlt | hge
    · exact hlt
    · rw [List.getElem?_eq_none hge] at hx
      exact absurd hx (by simp)
  simp [List.getElem?_set, hlt]

theorem defaultModel_temperature (ctx : Context) :
    (defaultModel ctx).Temperature = defaultTemperature := by
  simp only [defaultModel]

theorem add_default_tenth : defaultTemperature.add tenth = ⟨0x419CCCCD⟩ := by
  rw [defaultTemperature_bits, tenth_bits]
  set_option maxRecDepth 100000 in decide

theorem add_default_tenth_tenth : (defaultTemperature.add tenth).add tenth = ⟨0x419D999A⟩ := by
  rw [add_default_tenth, tenth_bits]
  set_option maxRecDepth 100000 in decide

theorem ofRatio_197_10 : Float32.ofRatio false 197 10 = ⟨0x419D999A⟩ := by
  set_option maxRecDepth 100000 in decide

theorem toRat_419D999A : Float32.toRat ⟨0x419D999A⟩ = 10328474 / 2 ^ 19 := by
  have hu : Float32.toUnits ⟨0x419D999A⟩ = 10328474 * 2 ^ 130 := by
    set_option maxRecDepth 100000 in decide
  rw [Float32.toRat, hu]
  norm_num

theorem tempUp_failed (ctx : Context) (h : Heap) (s : Socket) (p : Params)
    (hf : (tempUp ctx h s p).failed) :
    (tempUp ctx h s p).heap = (NewThermoModel ctx h s).1 := by
  cases hm : (NewThermoModel ctx h s).1[(NewThermoModel ctx h s).2]? with
  | none => rw [tempUp_none ctx h s p hm]
  | some m =>
    have e := tempUp_some ctx h s p m hm
    exact absurd (by rw [e]) (hf (.thermoPtr (NewThermoModel ctx h s).2))

theorem tempDown_failed (ctx : Context) (h : Heap) (s : Socket) (p : Params)
    (hf : (tempDown ctx h s p).failed) :
    (tempDown ctx h s p).heap = (NewThermoModel ctx h s).1 := by
  cases hm : (NewThermoModel ctx h s).1[(NewThermoModel ctx h s).2]? with
  | none => rw [tempDown_none ctx h s p hm]
  | some m =>
    have e := tempDown_some ctx h s p m hm
    exact absurd (by rw [e]) (hf (.thermoPtr (NewThermoModel ctx h s).2))

theorem tempChange_failed (ctx : Context) (h : Heap) (s : Socket) (p : Params)
    (hf : (tempChange ctx h s p).failed) :
    (tempChange ctx h s p).heap = (NewThermoModel ctx h s).1 := by
  cases hm : (NewThermoModel ctx h s).1[(NewThermoModel ctx h s).2]? with
  | none => rw [tempChange_none ctx h s p hm]
  | some m =>
    have e := tempChange_some ctx h s p m hm
    exact absurd (by rw [e]) (hf (.thermoPtr (NewThermoModel ctx h s).2))

theorem saveEvent_heap (ctx : Context) (h : Heap) (s : Socket) (p : Params) :
    (saveEvent ctx h s p).heap = (NewThermoModel ctx h s).1 := by
  cases hm : (NewThermoModel ctx h s).1[(NewThermoModel ctx h s).2]? with
  | none => rw [saveEvent_none ctx h s p hm]
  | some m => rw [saveEvent_some ctx h s p m hm]

theorem reloadSelf_failed (ctx : Context) (h : Heap) (s : Socket) (d : Value)
    (hf : (reloadSelf ctx h s d).failed) :
    (reloadSelf ctx h s d).heap = (NewThermoModel ctx h s).1 := by
  cases hm : (NewThermoModel ctx h s).1[(NewThermoModel ctx h s).2]? with
  | none => rw [reloadSelf_none ctx h s d hm]
  | some m =>
    have e := reloadSelf_some ctx h s d m hm
    exact absurd (by rw [e]) (hf (.thermoPtr (NewThermoModel ctx h s).2))

theorem value_str_or_not (d : Value) : (∃ v, d = .str v) ∨ ∀ v, d ≠ .str v := by
  cases d with
  | str v => exact Or.inl ⟨v, rfl⟩
  | nil => exact Or.inr (fun v hv => by cases hv)
  | thermoPtr b => exact Or.inr (fun v hv => by cases hv)
  | other t => exact Or.inr (fun v hv => by cases hv)

theorem statusSelf_failed (ctx : Context) (h : Heap) (s : Socket) (d : Value)
    (hf : (statusSelf ctx h s d).failed) :
    (statusSelf ctx h s d).heap = (NewThermoModel ctx h s).1 := by
  rcases value_str_or_not d with ⟨v, rfl⟩ | hd
  · cases hm : (NewThermoModel ctx h s).1[(NewThermoModel ctx h s).2]? with
    | none => rw [statusSelf_none ctx h s v hm]
    | some m =>
      have e := statusSelf_some ctx h s v m hm
      exact absurd (by rw [e]) (hf (.thermoPtr (NewThermoModel ctx h s).2))
  · rw [statusSelf_not_string ctx h s d hd]

theorem timeSelf_failed (ctx : Context) (h : Heap) (s : Socket) (d : Value)
    (hf : (timeSelf ctx h s d).failed) :
    (timeSelf ctx h s d).heap = (NewThermoModel ctx h s).1 := by
  rcases value_str_or_not d with ⟨v, rfl⟩ | hd
  · cases hm : (NewThermoModel ctx h s).1[(NewThermoModel ctx h s).2]? with
    | none => rw [timeSelf_none ctx h s v hm]
    | some m =>
      have e := timeSelf_some ctx h s v m hm
      exact absurd (by rw [e]) (hf (.thermoPtr (NewThermoModel ctx h s).2))
  · rw [timeSelf_not_string ctx h s d hd]

theorem mem_eventHandlers (name : String) (f : EventHandler)
    (hmem : (name, f) ∈ eventHandlers) :
    (name = "temp-up" ∧ f = tempUp) ∨ (name = "temp-down" ∧ f = tempDown) ∨
      (name = "temp-change" ∧ f = tempChange) ∨ (name = "save" ∧ f = saveEvent) := by
  simpa [eventHandlers] using hmem

theorem mem_selfHandlers (topic : String) (f : SelfHandler)
    (hmem : (topic, f) ∈ selfHandlers) :
    (topic = "reload" ∧ f = reloadSelf) ∨ (topic = "status" ∧ f = statusSelf) ∨
      (topic = "time" ∧ f = timeSelf) := by
  simpa [selfHandlers] using hmem

theorem snapshot_set (h : Heap) (a : Nat) (m m1 : ThermoModel) (hm : h[a]? = some m) :
    snapshot (h.set a m1) ⟨.thermoPtr a⟩ = some m1 :=
  getElem?_set_of_some h a m m1 hm

theorem model_set (h : Heap) (a : Nat) (m m1 : ThermoModel) (hm : h[a]? = some m)
    (bs : List (String × Value)) (ps : List String) :
    Outcome.model ⟨h.set a m1, .returned (.thermoPtr a) none, bs, ps⟩ = some m1 :=
  getElem?_set_of_some h a m m1 hm

theorem wrapInt64_of_inRange (x : Int) (hlo : -(2 ^ 63) ≤ x) (hhi : x < 2 ^ 63) :
    wrapInt64 x = x := by
  unfold wrapInt64
  rw [Int.emod_eq_of_lt (by omega) (by omega)]
  omega

/-! ## Broadcasts -/

theorem tempUp_broadcasts (ctx : Context) (h : Heap) (s : Socket) (p : Params) :
    (tempUp ctx h s p).broadcasts = [] := by
  cases hm : (NewThermoModel ctx h s).1[(NewThermoModel ctx h s).2]? with
  | none => rw [tempUp_none ctx h s p hm]
  | some m => rw [tempUp_some ctx h s p m hm]

theorem tempDown_broadcasts (ctx : Context) (h : Heap) (s : Socket) (p : Params) :
    (tempDown ctx h s p).broadcasts = [] := by
  cases hm : (NewThermoModel ctx h s).1[(NewThermoModel ctx h s).2]? with
  | none => rw [tempDown_none ctx h s p hm]
  | some m => rw [tempDown_some ctx h s p m hm]

theorem tempChange_broadcasts (ctx : Context) (h : Heap) (s : Socket) (p : Params)
    (t : String) (d : Value) (hmem : (t, d) ∈ (tempChange ctx h s p).broadcasts) :
    t = "status" ∧ ∃ v, d = .str v := by
  cases hm : (NewThermoModel ctx h s).1[(NewThermoModel ctx h s).2]? with
  | none =>
    rw [tempChange_none ctx h s p hm] at hmem
    simp at hmem
  | some m =>
    rw [tempChange_some ctx h s p m hm] at hmem
    simp only [List.mem_singleton, Prod.mk.injEq] at hmem
    exact ⟨hmem.1, _, hmem.2⟩

theorem saveEvent_broadcasts (ctx : Context) (h : Heap) (s : Socket) (p : Params)
    (t : String) (d : Value) (hmem : (t, d) ∈ (saveEvent ctx h s p).broadcasts) :
    t = "status" ∧ ∃ v, d = .str v := by
  cases hm : (NewThermoModel ctx h s).1[(NewThermoModel ctx h s).2]? with
  | none =>
    rw [saveEvent_none ctx h s p hm] at hmem
    simp at hmem
  | some m =>
    rw [saveEvent_some ctx h s p m hm] at hmem
    simp only [List.mem_singleton, Prod.mk.injEq] at hmem
    exact ⟨hmem.1, _, hmem.2⟩

theorem reloadSelf_broadcasts (ctx : Context) (h : Heap) (s : Socket) (d : Value) :
    (reloadSelf ctx h s d).broadcasts = [] := by
  cases hm : (NewThermoModel ctx h s).1[(NewThermoModel ctx h s).2]? with
  | none => rw [reloadSelf_none ctx h s d hm]
  | some m => rw [reloadSelf_some ctx h s d m hm]

theorem statusSelf_broadcasts (ctx : Context) (h : Heap) (s : Socket) (d : Value) :
    (statusSelf ctx h s d).broadcasts = [] := by
  rcases value_str_or_not d with ⟨v, rfl⟩ | hd
  · cases hm : (NewThermoModel ctx h s).1[(NewThermoModel ctx h s).2]? with
    | none => rw [statusSelf_none ctx h s v hm]
    | some m => rw [statusSelf_some ctx h s v m hm]
  · rw [statusSelf_not_string ctx h s d hd]

theorem timeSelf_broadcasts (ctx : Context) (h : Heap) (s : Socket) (d : Value) :
    (timeSelf ctx h s d).broadcasts = [] := by
  rcases value_str_or_not d with ⟨v, rfl⟩ | hd
  · cases hm : (NewThermoModel ctx h s).1[(NewThermoModel ctx h s).2]? with
    | none => rw [timeSelf_none ctx h s v hm]
    | some m => rw [timeSelf_some ctx h s v m hm]
  · rw [timeSelf_not_string ctx h s d hd]

theorem clockLoop_broadcasts (stamps : List String) (t : String) (d : Value)
    (hmem : Effect.broadcast t d ∈ clockLoop stamps) : t = "time" ∧ ∃ v, d = .str v := by
  induction stamps with
  | nil => simp [clockLoop] at hmem
  | cons x rest ih =>
    simp only [clockLoop, List.mem_cons, Effect.broadcast.injEq] at hmem
    rcases hmem with ⟨ht, hd⟩ | hfalse | hrest
    · exact ⟨ht, x, hd⟩
    · exact Effect.noConfusion hfalse
    · exact ih hrest

theorem reloadSelf_no_assertion_failure (ctx : Context) (h : Heap) (s : Socket) (d : Value) :
    (reloadSelf ctx h s d).result ≠ .panicked .typeAssertion := by
  cases hm : (NewThermoModel ctx h s).1[(NewThermoModel ctx h s).2]? with
  | none =>
    rw [reloadSelf_none ctx h s d hm]
    intro hc
    exact Panic.noConfusion (Result.panicked.inj hc)
  | some m =>
    rw [reloadSelf_some ctx h s d m hm]
    intro hc
    exact Result.noConfusion hc

theorem statusSelf_no_assertion_failure (ctx : Context) (h : Heap) (s : Socket) (v : String) :
    (statusSelf ctx h s (.str v)).result ≠ .panicked .typeAssertion := by
  cases hm : (NewThermoModel ctx h s).1[(NewThermoModel ctx h s).2]? with
  | none =>
    rw [statusSelf_none ctx h s v hm]
    intro hc
    exact Panic.noConfusion (Result.panicked.inj hc)
  | some m =>
    rw [statusSelf_some ctx h s v m hm]
    intro hc
    exact Result.noConfusion hc

theorem timeSelf_no_assertion_failure (ctx : Context) (h : Heap) (s : Socket) (v : String) :
    (timeSelf ctx h s (.str v)).result ≠ .panicked .typeAssertion := by
  cases hm : (NewThermoModel ctx h s).1[(NewThermoModel ctx h s).2]? with
  | none =>
    rw [timeSelf_none ctx h s v hm]
    intro hc
    exact Panic.noConfusion (Result.panicked.inj hc)
  | some m =>
    rw [timeSelf_some ctx h s v m hm]
    intro hc
    exact Result.noConfusion hc

/-- Every published pair is a `reload` with nil payload, or a `status` or
`time` with a string payload. -/
theorem published_shape (t : String) (d : Value) (hp : Published t d) :
    (t = "reload" ∧ d = .nil) ∨ (t = "status" ∧ ∃ v, d = .str v) ∨
      (t = "time" ∧ ∃ v, d = .str v) := by
  rcases hp with ⟨name, f, ctx, h, s, p, hmem, hb⟩ | ⟨topic, f, ctx, h, s, d0, hmem, hb⟩ |
    ⟨ctx, h, s, hb⟩ | ⟨body, hbody, hb⟩ | ⟨stamps, hb⟩
  · rcases mem_eventHandlers name f hmem with ⟨-, rfl⟩ | ⟨-, rfl⟩ | ⟨-, rfl⟩ | ⟨-, rfl⟩
    · rw [tempUp_broadcasts] at hb
      simp at hb
    · rw [tempDown_broadcasts] at hb
      simp at hb
    · exact Or.inr (Or.inl (tempChange_broadcasts ctx h s p t d hb))
    · exact Or.inr (Or.inl (saveEvent_broadcasts ctx h s p t d hb))
  · rcases mem_selfHandlers topic f hmem with ⟨-, rfl⟩ | ⟨-, rfl⟩ | ⟨-, rfl⟩
    · rw [reloadSelf_broadcasts] at hb
      simp at hb
    · rw [statusSelf_broadcasts] at hb
      simp at hb
    · rw [timeSelf_broadcasts] at hb
      simp at hb
  · have e : (thermoMount ctx h s).broadcasts = [] := rfl
    rw [e] at hb
    simp at hb
  · simp only [ReloadEngine.Start, List.mem_singleton] at hbody
    subst hbody
    simp only [List.mem_cons, List.mem_singleton, Effect.broadcast.injEq,
      List.not_mem_nil, or_false] at hb
    rcases hb with hfalse | ⟨ht, hd⟩
    · exact Effect.noConfusion hfalse
    · exact Or.inl ⟨ht, hd⟩
  · exact Or.inr (Or.inr (clockLoop_broadcasts stamps t d hb))

/-! ## The session loop, one event at a time -/

theorem lookup_eventHandlers (name : String) :
    eventHandlers.lookup name = none ∨ eventHandlers.lookup name = some tempUp ∨
      eventHandlers.lookup name = some tempDown ∨
      eventHandlers.lookup name = some tempChange ∨
      eventHandlers.lookup name = some saveEvent := by
  unfold eventHandlers
  simp only [List.lookup]
  split
  · simp
  · split
    · simp
    · split
      · simp
      · split
        · simp
        · simp

theorem lookup_selfHandlers (topic : String) :
    (topic = "reload" ∧ selfHandlers.lookup topic = some reloadSelf) ∨
      (topic = "status" ∧ selfHandlers.lookup topic = some statusSelf) ∨
      (topic = "time" ∧ selfHandlers.lookup topic = some timeSelf) ∨
      (topic ≠ "reload" ∧ topic ≠ "status" ∧ topic ≠ "time" ∧
        selfHandlers.lookup topic = none) := by
  by_cases h1 : topic = "reload"
  · subst h1
    exact Or.inl ⟨rfl, rfl⟩
  by_cases h2 : topic = "status"
  · subst h2
    exact Or.inr (Or.inl ⟨rfl, rfl⟩)
  by_cases h3 : topic = "time"
  · subst h3
    exact Or.inr (Or.inr (Or.inl ⟨rfl, rfl⟩))
  refine Or.inr (Or.inr (Or.inr ⟨h1, h2, h3, ?_⟩))
  have b1 : (topic == "reload") = false := by simpa using h1
  have b2 : (topic == "status") = false := by simpa using h2
  have b3 : (topic == "time") = false := by simpa using h3
  unfold selfHandlers
  simp only [List.lookup, b1, b2, b3]

theorem process_of_returned (ctx : Context) (st : Session) (ev : Event) (o : Outcome)
    (v : Value) (hd : dispatch ctx st.heap st.socket ev = some o)
    (hr : o.result = .returned v none) :
    Session.process ctx st ev = ⟨o.heap, ⟨v⟩⟩ := by
  unfold Session.process
  rw [hd]
  simp only
  rw [hr]

theorem process_of_unknown (ctx : Context) (st : Session) (ev : Event)
    (hd : dispatch ctx st.heap st.socket ev = none) :
    Session.process ctx st ev = st := by
  unfold Session.process
  rw [hd]

theorem process_of_set (ctx : Context) (h : Heap) (a : Nat) (ev : Event) (m m1 : ThermoModel)
    (o : Outcome) (hm : h[a]? = some m)
    (hd : dispatch ctx h ⟨.thermoPtr a⟩ ev = some o)
    (hh : o.heap = h.set a m1) (hr : o.result = .returned (.thermoPtr a) none) :
    Session.process ctx ⟨h, ⟨.thermoPtr a⟩⟩ ev = ⟨h.set a m1, ⟨.thermoPtr a⟩⟩ ∧
      (h.set a m1)[a]? = some m1 := by
  refine ⟨?_, getElem?_set_of_some h a m m1 hm⟩
  rw [process_of_returned ctx ⟨h, ⟨.thermoPtr a⟩⟩ ev o (.thermoPtr a) hd hr, hh]

theorem lastStatus_cons (dflt : String) (ev : Event) (rest : List Event) :
    lastStatus dflt (ev :: rest) = lastStatus (lastStatus dflt [ev]) rest := by
  cases ev with
  | client name p => simp [lastStatus]
  | self topic d =>
    cases d <;> simp [lastStatus]

theorem reloadCount_cons (ev : Event) (rest : List Event) :
    reloadCount (ev :: rest) = reloadCount [ev] + reloadCount rest := by
  cases ev with
  | client name p => simp [reloadCount]
  | self topic d => simp [reloadCount]

theorem stringPayloads_cons (ev : Event) (rest : List Event) :
    stringPayloads (ev :: rest) ↔ stringPayloads [ev] ∧ stringPayloads rest := by
  cases ev with
  | client name p => simp [stringPayloads]
  | self topic d => simp [stringPayloads]

theorem lastStatus_self_other (dflt topic : String) (d : Value) (ht : topic ≠ "status") :
    lastStatus dflt [.self topic d] = dflt := by
  cases d <;> simp [lastStatus, ht]

/-- One step of the loop on a session that holds a valid pointer: the session
keeps that pointer, and the struct behind it has the step's Revision and
Status. -/
theorem process_step (ctx : Context) (h : Heap) (a : Nat) (m : ThermoModel) (ev : Event)
    (hm : h[a]? = some m) (hstr : stringPayloads [ev]) :
    ∃ h1 m1, Session.process ctx ⟨h, ⟨.thermoPtr a⟩⟩ ev = ⟨h1, ⟨.thermoPtr a⟩⟩ ∧
      h1[a]? = some m1 ∧
      m1.LiveReload.Revision =
        (if reloadCount [ev] = 1 then wrapInt64 (m.LiveReload.Revision + 1)
          else m.LiveReload.Revision) ∧
      m1.Status = lastStatus m.Status [ev] := by
  have hm2 : (NewThermoModel ctx h ⟨.thermoPtr a⟩).1[
      (NewThermoModel ctx h ⟨.thermoPtr a⟩).2]? = some m := hm
  cases ev with
  | client name p =>
    have hrc : reloadCount [Event.client name p] = 0 := by simp [reloadCount]
    have hls : lastStatus m.Status [Event.client name p] = m.Status := by simp [lastStatus]
    rw [hrc, hls]
    rcases lookup_eventHandlers name with hl | hl | hl | hl | hl
    · refine ⟨h, m, ?_, hm, by simp, rfl⟩
      apply process_of_unknown
      simp [dispatch, hl]
    · have ho := tempUp_some ctx h ⟨.thermoPtr a⟩ p m hm2
      obtain ⟨hp, hg⟩ := process_of_set ctx h a (.client name p) m { m with Temperature := m.Temperature.add tenth }
        (tempUp ctx h ⟨.thermoPtr a⟩ p) hm (by simp [dispatch, hl]) (by rw [ho]; rfl)
        (by rw [ho]; rfl)
      exact ⟨_, _, hp, hg, by simp, rfl⟩
    · have ho := tempDown_some ctx h ⟨.thermoPtr a⟩ p m hm2
      obtain ⟨hp, hg⟩ := process_of_set ctx h a (.client name p) m { m with Temperature := m.Temperature.sub tenth }
        (tempDown ctx h ⟨.thermoPtr a⟩ p) hm (by simp [dispatch, hl]) (by rw [ho]; rfl)
        (by rw [ho]; rfl)
      exact ⟨_, _, hp, hg, by simp, rfl⟩
    · have ho := tempChange_some ctx h ⟨.thermoPtr a⟩ p m hm2
      obtain ⟨hp, hg⟩ := process_of_set ctx h a (.client name p) m { m with Temperature := m.Temperature.add (p.getFloat32 "temperature") }
        (tempChange ctx h ⟨.thermoPtr a⟩ p) hm (by simp [dispatch, hl]) (by rw [ho]; rfl)
        (by rw [ho]; rfl)
      exact ⟨_, _, hp, hg, by simp, rfl⟩
    · refine ⟨_, m, process_of_returned ctx _ _ (saveEvent ctx h ⟨.thermoPtr a⟩ p)
        (.thermoPtr a) (by simp [dispatch, hl])
        (by rw [saveEvent_some ctx h _ p m hm2]; rfl), ?_, ?_, ?_⟩
      · rw [saveEvent_some ctx h _ p m hm2]
        exact hm
      · simp
      · rfl
  | self topic d =>
    rcases lookup_selfHandlers topic with ⟨rfl, hl⟩ | ⟨rfl, hl⟩ | ⟨rfl, hl⟩ | ⟨h1, h2, h3, hl⟩
    · have hrc : reloadCount [Event.self "reload" d] = 1 := by simp [reloadCount]
      have hls : lastStatus m.Status [Event.self "reload" d] = m.Status :=
        lastStatus_self_other _ _ _ (by decide)
      rw [hrc, hls]
      have ho := reloadSelf_some ctx h ⟨.thermoPtr a⟩ d m hm2
      obtain ⟨hp, hg⟩ := process_of_set ctx h a (.self "reload" d) m { m with LiveReload := ⟨wrapInt64 (m.LiveReload.Revision + 1)⟩ }
        (reloadSelf ctx h ⟨.thermoPtr a⟩ d) hm (by simp [dispatch, hl]) (by rw [ho]; rfl)
        (by rw [ho]; rfl)
      exact ⟨_, _, hp, hg, by simp, rfl⟩
    · have hrc : reloadCount [Event.self "status" d] = 0 := by simp [reloadCount]
      obtain ⟨v, rfl⟩ : ∃ v, d = .str v := by
        have hstr2 : ((("status" : String) = "status" ∨ ("status" : String) = "time") →
            ∃ v, d = Value.str v) ∧ stringPayloads [] := hstr
        exact hstr2.1 (Or.inl rfl)
      have hls : lastStatus m.Status [Event.self "status" (.str v)] = v := by
        simp [lastStatus]
      rw [hrc, hls]
      have ho := statusSelf_some ctx h ⟨.thermoPtr a⟩ v m hm2
      obtain ⟨hp, hg⟩ := process_of_set ctx h a (.self "status" (.str v)) m { m with Status := v }
        (statusSelf ctx h ⟨.thermoPtr a⟩ (.str v)) hm (by simp [dispatch, hl]) (by rw [ho]; rfl)
        (by rw [ho]; rfl)
      exact ⟨_, _, hp, hg, by simp, rfl⟩
    · have hrc : reloadCount [Event.self "time" d] = 0 := by simp [reloadCount]
      obtain ⟨v, rfl⟩ : ∃ v, d = .str v := by
        have hstr2 : ((("time" : String) = "status" ∨ ("time" : String) = "time") →
            ∃ v, d = Value.str v) ∧ stringPayloads [] := hstr
        exact hstr2.1 (Or.inr rfl)
      have hls : lastStatus m.Status [Event.self "time" (.str v)] = m.Status :=
        lastStatus_self_other _ _ _ (by decide)
      rw [hrc, hls]
      have ho := timeSelf_some ctx h ⟨.thermoPtr a⟩ v m hm2
      obtain ⟨hp, hg⟩ := process_of_set ctx h a (.self "time" (.str v)) m { m with Time := v }
        (timeSelf ctx h ⟨.thermoPtr a⟩ (.str v)) hm (by simp [dispatch, hl]) (by rw [ho]; rfl)
        (by rw [ho]; rfl)
      exact ⟨_, _, hp, hg, by simp, rfl⟩
    · have hrc : reloadCount [Event.self topic d] = 0 := by simp [reloadCount, h1]
      have hls : lastStatus m.Status [Event.self topic d] = m.Status :=
        lastStatus_self_other _ _ _ h2
      rw [hrc, hls]
      refine ⟨h, m, ?_, hm, by simp, rfl⟩
      apply process_of_unknown
      simp [dispatch, hl]

theorem reloadCount_single_le (ev : Event) : reloadCount [ev] ≤ 1 := by
  cases ev with
  | client name p => simp [reloadCount]
  | self topic d =>
    simp only [reloadCount]
    split <;> simp

/-- The loop over a whole sequence, from a session that holds a valid pointer. -/
theorem run_from_valid (ctx : Context) (evs : List Event) :
    ∀ (h : Heap) (a : Nat) (m : ThermoModel), h[a]? = some m → stringPayloads evs →
      -(2 ^ 63) ≤ m.LiveReload.Revision →
      m.LiveReload.Revision + (reloadCount evs : Int) < 2 ^ 63 →
      ∃ h1 m1, Session.run ctx ⟨h, ⟨.thermoPtr a⟩⟩ evs = ⟨h1, ⟨.thermoPtr a⟩⟩ ∧
        h1[a]? = some m1 ∧
        m1.LiveReload.Revision = m.LiveReload.Revision + (reloadCount evs : Int) ∧
        m1.Status = lastStatus m.Status evs := by
  induction evs with
  | nil =>
    intro h a m hm _ _ _
    exact ⟨h, m, rfl, hm, by simp [reloadCount], rfl⟩
  | cons ev rest ih =>
    intro h a m hm hstr hlo hhi
    rw [stringPayloads_cons] at hstr
    rw [reloadCount_cons] at hhi
    obtain ⟨h1, m1, hp, hm1, hrev, hst⟩ := process_step ctx h a m ev hm hstr.1
    have hle := reloadCount_single_le ev
    have hrev1 : m1.LiveReload.Revision = m.LiveReload.Revision + (reloadCount [ev] : Int) := by
      rw [hrev]
      by_cases hc : reloadCount [ev] = 1
      · rw [if_pos hc, hc]
        rw [hc] at hhi
        push_cast at hhi ⊢
        exact wrapInt64_of_inRange _ (by omega) (by omega)
      · rw [if_neg hc]
        have h0 : reloadCount [ev] = 0 := by omega
        rw [h0]
        simp
    obtain ⟨h2, m2, hrun, hm2, hrev2, hst2⟩ := ih h1 a m1 hm1 hstr.2
      (by rw [hrev1]; omega) (by rw [hrev1]; push_cast at hhi ⊢; omega)
    refine ⟨h2, m2, ?_, hm2, ?_, ?_⟩
    · show Session.run ctx (Session.process ctx ⟨h, ⟨.thermoPtr a⟩⟩ ev) rest = _
      rw [hp]
      exact hrun
    · have hc := reloadCount_cons ev rest
      rw [hrev2, hrev1, hc]
      push_cast
      omega
    · rw [hst2, hst, ← lastStatus_cons]

/-! ## Claims -/

/-- C1: `NewThermoModel` returns the stored pointer itself (heap untouched)
when the socket's assigns hold a `*ThermoModel`; otherwise it returns a pointer
to a new struct with Name the request's `name` query parameter, Temperature
19.5, Status empty, Revision 1 and Time empty, leaving the existing structs as
they were.  `thermoMount` returns that same pointer with a nil error. -/
theorem newThermoModel_get_or_init (ctx : Context) (h : Heap) (s : Socket) :
    (∀ a, s.assigns = .thermoPtr a → NewThermoModel ctx h s = (h, a)) ∧
    ((∀ a, s.assigns ≠ .thermoPtr a) →
      (NewThermoModel ctx h s).1[(NewThermoModel ctx h s).2]? =
          some ⟨ctx.queryGet "name", ⟨0x419C0000⟩, "", ⟨1⟩, ""⟩ ∧
        Float32.toRat ⟨0x419C0000⟩ = 39 / 2 ∧
        h <+: (NewThermoModel ctx h s).1) ∧
    (thermoMount ctx h s).result =
        .returned (.thermoPtr (NewThermoModel ctx h s).2) none ∧
    (thermoMount ctx h s).heap = (NewThermoModel ctx h s).1 := by
  refine ⟨?_, ?_, rfl, rfl⟩
  · intro a ha
    unfold NewThermoModel
    rw [ha]
  · intro hs
    rw [newThermoModel_fresh ctx h s hs]
    refine ⟨?_, ?_, ?_⟩
    · simp [defaultModel, defaultTemperature_bits]
    · rw [← defaultTemperature_bits]
      exact defaultTemperature_toRat
    · exact List.prefix_append h _

/-- C6: two calls of `NewThermoModel` in a row on the same socket yield the
same Snapshot value: the same pointer (and an untouched heap) when one is
stored, and two structs both equal to the default one when none is. -/
theorem newThermoModel_idempotent (ctx : Context) (h : Heap) (s : Socket) :
    (NewThermoModel ctx (NewThermoModel ctx h s).1 s).1[(NewThermoModel ctx h s).2]? =
      (NewThermoModel ctx (NewThermoModel ctx h s).1 s).1[
        (NewThermoModel ctx (NewThermoModel ctx h s).1 s).2]? ∧
    (∀ a, s.assigns = .thermoPtr a →
      (NewThermoModel ctx h s).2 = a ∧
      (NewThermoModel ctx (NewThermoModel ctx h s).1 s).2 = a ∧
      (NewThermoModel ctx (NewThermoModel ctx h s).1 s).1 = h) ∧
    ((∀ a, s.assigns ≠ .thermoPtr a) →
      (NewThermoModel ctx (NewThermoModel ctx h s).1 s).1[(NewThermoModel ctx h s).2]? =
        some (defaultModel ctx) ∧
      (NewThermoModel ctx (NewThermoModel ctx h s).1 s).1[
        (NewThermoModel ctx (NewThermoModel ctx h s).1 s).2]? = some (defaultModel ctx)) := by
  rcases newThermoModel_cases ctx h s with ⟨a, ha, h1⟩ | ⟨hs, h1⟩
  · have h2 : NewThermoModel ctx h s = (h, a) := h1
    have hs : s = ⟨.thermoPtr a⟩ := by cases s; simp_all
    subst hs
    simp [newThermoModel_ptr]
  · rw [h1]
    simp only
    rw [newThermoModel_fresh ctx _ s hs]
    have e1 : ((h ++ [defaultModel ctx]) ++ [defaultModel ctx])[h.length]? =
        some (defaultModel ctx) := by
      rw [List.append_assoc]
      exact getElem?_append_length h _ _
    have e2 : ((h ++ [defaultModel ctx]) ++ [defaultModel ctx])[
        (h ++ [defaultModel ctx]).length]? = some (defaultModel ctx) :=
      getElem?_append_length _ _ _
    refine ⟨?_, ?_, ?_⟩
    · exact e1.trans e2.symm
    · intro a ha
      exact absurd ha (hs a)
    · intro _
      exact ⟨e1, e2⟩

/-- C2: mounting a fresh session and then running `tempUp` twice on the
socket that holds the mounted pointer yields a Snapshot whose Temperature is
the `float32` nearest to 19.7, which differs from 19.7 by less than `2^-20`;
each step adds the `float32` constant 0.1 with `float32` rounding. -/
theorem tempUp_twice_from_default (ctx : Context) (h : Heap) (p1 p2 : Params) :
    ∃ a m,
      (thermoMount ctx h ⟨.nil⟩).result = .returned (.thermoPtr a) none ∧
      (thermoMount ctx h ⟨.nil⟩).model = some (defaultModel ctx) ∧
      (tempUp ctx (thermoMount ctx h ⟨.nil⟩).heap ⟨.thermoPtr a⟩ p1).result =
        .returned (.thermoPtr a) none ∧
      (tempUp ctx (tempUp ctx (thermoMount ctx h ⟨.nil⟩).heap ⟨.thermoPtr a⟩ p1).heap
        ⟨.thermoPtr a⟩ p2).model = some m ∧
      m.Temperature = ((defaultModel ctx).Temperature.add tenth).add tenth ∧
      m.Temperature = Float32.ofRatio false 197 10 ∧
      |m.Temperature.toRat - 197 / 10| < 1 / 2 ^ 20 := by
  have hmount : thermoMount ctx h ⟨.nil⟩ =
      ⟨h ++ [defaultModel ctx], .returned (.thermoPtr h.length) none, [],
        ["Mounting application"]⟩ := rfl
  have h0 : (h ++ [defaultModel ctx])[h.length]? = some (defaultModel ctx) :=
    getElem?_append_length h _ _
  have hup1 := tempUp_some ctx (h ++ [defaultModel ctx]) ⟨.thermoPtr h.length⟩ p1
    (defaultModel ctx) h0
  simp only [newThermoModel_ptr] at hup1
  have h1 : ((h ++ [defaultModel ctx]).set h.length
      { defaultModel ctx with Temperature := (defaultModel ctx).Temperature.add tenth })[
        h.length]? =
      some { defaultModel ctx with Temperature := (defaultModel ctx).Temperature.add tenth } :=
    getElem?_set_of_some _ _ _ _ h0
  have hup2 := tempUp_some ctx _ ⟨.thermoPtr h.length⟩ p2 _ h1
  simp only [newThermoModel_ptr] at hup2
  refine ⟨h.length,
    { { defaultModel ctx with Temperature := (defaultModel ctx).Temperature.add tenth } with
      Temperature := ((defaultModel ctx).Temperature.add tenth).add tenth },
    ?_, ?_, ?_, ?_, rfl, ?_, ?_⟩
  · rw [hmount]
  · rw [hmount]
    exact h0
  · rw [hmount, hup1]
  · rw [hmount, hup1, hup2]
    exact getElem?_set_of_some _ _ _ _ h1
  · simp only [defaultModel_temperature]
    rw [ofRatio_197_10, add_default_tenth_tenth]
  · simp only [defaultModel_temperature]
    rw [add_default_tenth_tenth, toRat_419D999A, abs_lt]
    constructor <;> norm_num

/-- C3: when get-or-init yields the Snapshot `m`, `saveEvent` issues exactly
one broadcast, on topic `status` with payload `m.Name ++ ": " ++ msg`, returns
the pointer to `m` with a nil error and leaves every struct as it was; and any
live session (one whose stored pointer, if any, is valid) that runs the
`status` self handler on that payload ends with Status equal to it. -/
theorem saveEvent_broadcasts_status (ctx : Context) (h : Heap) (s : Socket) (p : Params)
    (m : ThermoModel)
    (hm : (NewThermoModel ctx h s).1[(NewThermoModel ctx h s).2]? = some m)
    (ctx2 : Context) (h2 : Heap) (s2 : Socket)
    (hlive : ∀ a, s2.assigns = .thermoPtr a → a < h2.length) :
    (saveEvent ctx h s p).broadcasts =
        [("status", .str (m.Name ++ ": " ++ p.getString "message"))] ∧
      (saveEvent ctx h s p).result =
        .returned (.thermoPtr (NewThermoModel ctx h s).2) none ∧
      (saveEvent ctx h s p).heap = (NewThermoModel ctx h s).1 ∧
      (saveEvent ctx h s p).model = some m ∧
      snapshot (saveEvent ctx h s p).heap s = snapshot h s ∧
      ∃ a2 m2,
        (statusSelf ctx2 h2 s2 (.str (m.Name ++ ": " ++ p.getString "message"))).result =
          .returned (.thermoPtr a2) none ∧
        (statusSelf ctx2 h2 s2 (.str (m.Name ++ ": " ++ p.getString "message"))).model =
          some m2 ∧
        m2.Status = m.Name ++ ": " ++ p.getString "message" := by
  have hsave := saveEvent_some ctx h s p m hm
  refine ⟨by rw [hsave], by rw [hsave], by rw [hsave], ?_, ?_, ?_⟩
  · rw [hsave]
    exact hm
  · rw [hsave]
    exact (newThermoModel_frame ctx h s).2
  · have hex : ∃ m0, (NewThermoModel ctx2 h2 s2).1[(NewThermoModel ctx2 h2 s2).2]? =
        some m0 := by
      rcases newThermoModel_cases ctx2 h2 s2 with ⟨a, ha, h1⟩ | ⟨hs, h1⟩
      · rw [h1]
        exact ⟨h2.get ⟨a, hlive a ha⟩, by simp [List.getElem?_eq_getElem (hlive a ha)]⟩
      · rw [h1]
        exact ⟨defaultModel ctx2, getElem?_append_length h2 _ _⟩
    obtain ⟨m0, hm0⟩ := hex
    have hst := statusSelf_some ctx2 h2 s2 (m.Name ++ ": " ++ p.getString "message") m0 hm0
    refine ⟨(NewThermoModel ctx2 h2 s2).2,
      { m0 with Status := m.Name ++ ": " ++ p.getString "message" }, ?_, ?_, rfl⟩
    · rw [hst]
    · rw [hst]
      exact getElem?_set_of_some _ _ _ _ hm0

/-- Witness for C3: a session named `bob` saves the message `hi`. -/
theorem saveEvent_broadcasts_status_witness :
    (saveEvent ⟨[("name", "bob")]⟩ [] ⟨.nil⟩ ⟨fun _ => "hi", fun _ => ⟨0⟩⟩).broadcasts =
      [("status", .str ("bob" ++ ": " ++ "hi"))] :=
  (saveEvent_broadcasts_status ⟨[("name", "bob")]⟩ [] ⟨.nil⟩ ⟨fun _ => "hi", fun _ => ⟨0⟩⟩
    (defaultModel ⟨[("name", "bob")]⟩) rfl ⟨[]⟩ [] ⟨.nil⟩
    (fun a ha => by simp at ha)).1

/-- C4: whenever a registered handler's invocation fails (it does not return
a value with a nil error), every struct that existed is as it was and the
socket's Snapshot after the call equals the Snapshot before it; and on a
payload that is not a string the `status` and `time` self handlers do fail, on
the type assertion, with the Snapshot unmodified. -/
theorem failed_handler_keeps_snapshot :
    (∀ name f, (name, f) ∈ eventHandlers → ∀ ctx h s p, (f ctx h s p).failed →
      h <+: (f ctx h s p).heap ∧ snapshot (f ctx h s p).heap s = snapshot h s) ∧
    (∀ topic f, (topic, f) ∈ selfHandlers → ∀ ctx h s d, (f ctx h s d).failed →
      h <+: (f ctx h s d).heap ∧ snapshot (f ctx h s d).heap s = snapshot h s) ∧
    (∀ ctx h s d, (∀ v, d ≠ .str v) →
      (statusSelf ctx h s d).result = .panicked .typeAssertion ∧
      (statusSelf ctx h s d).failed ∧
      h <+: (statusSelf ctx h s d).heap ∧
      snapshot (statusSelf ctx h s d).heap s = snapshot h s) ∧
    (∀ ctx h s d, (∀ v, d ≠ .str v) →
      (timeSelf ctx h s d).result = .panicked .typeAssertion ∧
      (timeSelf ctx h s d).failed ∧
      h <+: (timeSelf ctx h s d).heap ∧
      snapshot (timeSelf ctx h s d).heap s = snapshot h s) := by
  refine ⟨?_, ?_, ?_, ?_⟩
  · intro name f hmem ctx h s p hf
    rcases mem_eventHandlers name f hmem with ⟨-, rfl⟩ | ⟨-, rfl⟩ | ⟨-, rfl⟩ | ⟨-, rfl⟩
    · rw [tempUp_failed ctx h s p hf]
      exact newThermoModel_frame ctx h s
    · rw [tempDown_failed ctx h s p hf]
      exact newThermoModel_frame ctx h s
    · rw [tempChange_failed ctx h s p hf]
      exact newThermoModel_frame ctx h s
    · rw [saveEvent_heap ctx h s p]
      exact newThermoModel_frame ctx h s
  · intro topic f hmem ctx h s d hf
    rcases mem_selfHandlers topic f hmem with ⟨-, rfl⟩ | ⟨-, rfl⟩ | ⟨-, rfl⟩
    · rw [reloadSelf_failed ctx h s d hf]
      exact newThermoModel_frame ctx h s
    · rw [statusSelf_failed ctx h s d hf]
      exact newThermoModel_frame ctx h s
    · rw [timeSelf_failed ctx h s d hf]
      exact newThermoModel_frame ctx h s
  · intro ctx h s d hd
    rw [statusSelf_not_string ctx h s d hd]
    refine ⟨rfl, ?_, newThermoModel_frame ctx h s⟩
    intro v hv
    exact Result.noConfusion hv
  · intro ctx h s d hd
    rw [timeSelf_not_string ctx h s d hd]
    refine ⟨rfl, ?_, newThermoModel_frame ctx h s⟩
    intro v hv
    exact Result.noConfusion hv

/-- C5, as stated, fails: a session holds a pointer to a Snapshot with
Revision 1; right after the `reload` self handler has run, and before anything
is stored, the Snapshot the socket's assigns yield is no longer the one from
before the call. -/
theorem reloadSelf_changes_held_snapshot :
    snapshot (reloadSelf ⟨[]⟩ [⟨"ann", ⟨0x419C0000⟩, "", ⟨1⟩, ""⟩] ⟨.thermoPtr 0⟩ .nil).heap
        ⟨.thermoPtr 0⟩ = some ⟨"ann", ⟨0x419C0000⟩, "", ⟨2⟩, ""⟩ ∧
      snapshot (reloadSelf ⟨[]⟩ [⟨"ann", ⟨0x419C0000⟩, "", ⟨1⟩, ""⟩] ⟨.thermoPtr 0⟩ .nil).heap
        ⟨.thermoPtr 0⟩ ≠
      snapshot [⟨"ann", ⟨0x419C0000⟩, "", ⟨1⟩, ""⟩] ⟨.thermoPtr 0⟩ := by
  decide

/-- C5, amended: for a session that holds a pointer to a Snapshot `m`, every
update handler writes its change into that very struct and returns the pointer
the session already holds: after the handler has run the socket's assigns
yield the updated Snapshot, with no store in between, and every other struct
is untouched. -/
theorem handlers_update_in_place (ctx : Context) (h : Heap) (a : Nat) (m : ThermoModel)
    (p : Params) (d : Value) (v : String) (hm : h[a]? = some m) :
    tempUp ctx h ⟨.thermoPtr a⟩ p =
        ⟨h.set a { m with Temperature := m.Temperature.add tenth },
          .returned (.thermoPtr a) none, [], []⟩ ∧
      tempDown ctx h ⟨.thermoPtr a⟩ p =
        ⟨h.set a { m with Temperature := m.Temperature.sub tenth },
          .returned (.thermoPtr a) none, [], []⟩ ∧
      (tempChange ctx h ⟨.thermoPtr a⟩ p).heap =
        h.set a { m with Temperature := m.Temperature.add (p.getFloat32 "temperature") } ∧
      (tempChange ctx h ⟨.thermoPtr a⟩ p).result = .returned (.thermoPtr a) none ∧
      reloadSelf ctx h ⟨.thermoPtr a⟩ d =
        ⟨h.set a { m with LiveReload := ⟨wrapInt64 (m.LiveReload.Revision + 1)⟩ },
          .returned (.thermoPtr a) none, [], []⟩ ∧
      statusSelf ctx h ⟨.thermoPtr a⟩ (.str v) =
        ⟨h.set a { m with Status := v }, .returned (.thermoPtr a) none, [], []⟩ ∧
      timeSelf ctx h ⟨.thermoPtr a⟩ (.str v) =
        ⟨h.set a { m with Time := v }, .returned (.thermoPtr a) none, [], []⟩ ∧
      (∀ m1, snapshot (h.set a m1) ⟨.thermoPtr a⟩ = some m1) ∧
      (∀ m1 b, b ≠ a → (h.set a m1)[b]? = h[b]?) := by
  have hm2 : (NewThermoModel ctx h ⟨.thermoPtr a⟩).1[
      (NewThermoModel ctx h ⟨.thermoPtr a⟩).2]? = some m := hm
  refine ⟨tempUp_some ctx h _ p m hm2, tempDown_some ctx h _ p m hm2, ?_, ?_,
    reloadSelf_some ctx h _ d m hm2, statusSelf_some ctx h _ v m hm2,
    timeSelf_some ctx h _ v m hm2, fun m1 => snapshot_set h a m m1 hm, ?_⟩
  · rw [tempChange_some ctx h _ p m hm2]
    rfl
  · rw [tempChange_some ctx h _ p m hm2]
    rfl
  · intro m1 b hb
    exact List.getElem?_set_ne (fun e => hb e.symm)

/-- Witness for C5 (amended): the session of the counterexample. -/
theorem handlers_update_in_place_witness :
    reloadSelf ⟨[]⟩ [⟨"ann", ⟨0x419C0000⟩, "", ⟨1⟩, ""⟩] ⟨.thermoPtr 0⟩ .nil =
      ⟨[⟨"ann", ⟨0x419C0000⟩, "", ⟨1⟩, ""⟩].set 0
          { (⟨"ann", ⟨0x419C0000⟩, "", ⟨1⟩, ""⟩ : ThermoModel) with
            LiveReload := ⟨wrapInt64 ((1 : Int) + 1)⟩ },
        .returned (.thermoPtr 0) none, [], []⟩ :=
  (handlers_update_in_place ⟨[]⟩ [⟨"ann", ⟨0x419C0000⟩, "", ⟨1⟩, ""⟩] 0
    ⟨"ann", ⟨0x419C0000⟩, "", ⟨1⟩, ""⟩ ⟨fun _ => "", fun _ => ⟨0⟩⟩ .nil "" rfl).2.2.2.2.1

/-- C7: one call of `Start` launches one goroutine, and run from any time
`now` with any sleep overshoot that goroutine broadcasts exactly once: topic
`reload`, nil payload, no earlier than three seconds after `now`. -/
theorem reloadEngine_start_fires_once (now : Nat) (late : List Nat) :
    ReloadEngine.Start.map (runFrom now late) =
        [[(now + 3 * second + late.headD 0, "reload", Value.nil)]] ∧
      now + 3000000000 ≤ now + 3 * second + late.headD 0 := by
  refine ⟨rfl, ?_⟩
  unfold second
  omega

/-- C8, as stated, fails: at the largest `int` the `reload` self handler does
not increase Revision by 1; the increment wraps to the smallest `int`. -/
theorem reloadSelf_wraps_at_max :
    (reloadSelf ⟨[]⟩ [⟨"ann", ⟨0x419C0000⟩, "", ⟨9223372036854775807⟩, ""⟩]
        ⟨.thermoPtr 0⟩ .nil).model =
      some ⟨"ann", ⟨0x419C0000⟩, "", ⟨-9223372036854775808⟩, ""⟩ ∧
    (-9223372036854775808 : Int) ≠ 9223372036854775807 + 1 := by
  decide

/-- C8, amended: when get-or-init yields the Snapshot `m` (so the handler
succeeds), the Snapshot a handler returns is `m` with only its own field
replaced: Temperature for `tempUp`, `tempDown` and `tempChange`;
`LiveReload.Revision` for `reload`, which is one more than before unless the
increment overflows `int`; Status, set to the payload, for `status`; Time, set
to the payload, for `time`; nothing for `saveEvent`.  Name is never changed. -/
theorem handlers_change_own_field (ctx : Context) (h : Heap) (s : Socket) (p : Params)
    (d : Value) (v : String) (m : ThermoModel)
    (hm : (NewThermoModel ctx h s).1[(NewThermoModel ctx h s).2]? = some m) :
    (tempUp ctx h s p).model = some { m with Temperature := m.Temperature.add tenth } ∧
      (tempDown ctx h s p).model = some { m with Temperature := m.Temperature.sub tenth } ∧
      (tempChange ctx h s p).model =
        some { m with Temperature := m.Temperature.add (p.getFloat32 "temperature") } ∧
      (reloadSelf ctx h s d).model =
        some { m with LiveReload := ⟨wrapInt64 (m.LiveReload.Revision + 1)⟩ } ∧
      (-(2 ^ 63) ≤ m.LiveReload.Revision → m.LiveReload.Revision < 2 ^ 63 - 1 →
        wrapInt64 (m.LiveReload.Revision + 1) = m.LiveReload.Revision + 1) ∧
      (statusSelf ctx h s (.str v)).model = some { m with Status := v } ∧
      (timeSelf ctx h s (.str v)).model = some { m with Time := v } ∧
      (saveEvent ctx h s p).model = some m ∧
      (∀ o : Outcome, o ∈ [tempUp ctx h s p, tempDown ctx h s p, tempChange ctx h s p,
          saveEvent ctx h s p, reloadSelf ctx h s d, statusSelf ctx h s (.str v),
          timeSelf ctx h s (.str v)] →
        ∃ m1, o.model = some m1 ∧ m1.Name = m.Name) := by
  have e1 : (tempUp ctx h s p).model = some { m with Temperature := m.Temperature.add tenth } := by
    rw [tempUp_some ctx h s p m hm]
    exact model_set _ _ m _ hm _ _
  have e2 : (tempDown ctx h s p).model =
      some { m with Temperature := m.Temperature.sub tenth } := by
    rw [tempDown_some ctx h s p m hm]
    exact model_set _ _ m _ hm _ _
  have e3 : (tempChange ctx h s p).model =
      some { m with Temperature := m.Temperature.add (p.getFloat32 "temperature") } := by
    rw [tempChange_some ctx h s p m hm]
    exact model_set _ _ m _ hm _ _
  have e4 : (reloadSelf ctx h s d).model =
      some { m with LiveReload := ⟨wrapInt64 (m.LiveReload.Revision + 1)⟩ } := by
    rw [reloadSelf_some ctx h s d m hm]
    exact model_set _ _ m _ hm _ _
  have e5 : (statusSelf ctx h s (.str v)).model = some { m with Status := v } := by
    rw [statusSelf_some ctx h s v m hm]
    exact model_set _ _ m _ hm _ _
  have e6 : (timeSelf ctx h s (.str v)).model = some { m with Time := v } := by
    rw [timeSelf_some ctx h s v m hm]
    exact model_set _ _ m _ hm _ _
  have e7 : (saveEvent ctx h s p).model = some m := by
    rw [saveEvent_some ctx h s p m hm]
    exact hm
  refine ⟨e1, e2, e3, e4, ?_, e5, e6, e7, ?_⟩
  · intro hlo hhi
    exact wrapInt64_of_inRange _ (by omega) (by omega)
  · intro o ho
    simp only [List.mem_cons, List.mem_singleton, List.not_mem_nil, or_false] at ho
    rcases ho with rfl | rfl | rfl | rfl | rfl | rfl | rfl
    · exact ⟨_, e1, rfl⟩
    · exact ⟨_, e2, rfl⟩
    · exact ⟨_, e3, rfl⟩
    · exact ⟨_, e7, rfl⟩
    · exact ⟨_, e4, rfl⟩
    · exact ⟨_, e5, rfl⟩
    · exact ⟨_, e6, rfl⟩

/-- Witness for C8 (amended): a session holding a Snapshot with Revision 1. -/
theorem handlers_change_own_field_witness :
    (reloadSelf ⟨[]⟩ [⟨"ann", ⟨0x419C0000⟩, "", ⟨1⟩, ""⟩] ⟨.thermoPtr 0⟩ .nil).model =
      some { (⟨"ann", ⟨0x419C0000⟩, "", ⟨1⟩, ""⟩ : ThermoModel) with
        LiveReload := ⟨wrapInt64 ((1 : Int) + 1)⟩ } :=
  (handlers_change_own_field ⟨[]⟩ [⟨"ann", ⟨0x419C0000⟩, "", ⟨1⟩, ""⟩] ⟨.thermoPtr 0⟩
    ⟨fun _ => "", fun _ => ⟨0⟩⟩ .nil "" ⟨"ann", ⟨0x419C0000⟩, "", ⟨1⟩, ""⟩ rfl).2.2.2.1

/-- C10: every `(topic, payload)` the program passes to `Broadcast` (from an
event handler, a self handler, the mount handler, `ReloadEngine.Start` or the
clock loop) has a handler registered with `HandleSelf` for its topic; a
payload on `status` or `time` is a string; and the registered handler, run on
that payload in any session, does not fail on the type assertion. -/
theorem published_topic_is_handled (t : String) (d : Value) (hp : Published t d) :
    ∃ f, selfHandlers.lookup t = some f ∧
      ((t = "status" ∨ t = "time") → ∃ v, d = .str v) ∧
      ∀ ctx h s, (f ctx h s d).result ≠ .panicked .typeAssertion := by
  rcases published_shape t d hp with ⟨rfl, rfl⟩ | ⟨rfl, v, rfl⟩ | ⟨rfl, v, rfl⟩
  · refine ⟨reloadSelf, rfl, ?_, fun ctx h s => reloadSelf_no_assertion_failure ctx h s _⟩
    intro hc
    rcases hc with hc | hc <;> exact absurd hc (by decide)
  · exact ⟨statusSelf, rfl, fun _ => ⟨v, rfl⟩,
      fun ctx h s => statusSelf_no_assertion_failure ctx h s v⟩
  · exact ⟨timeSelf, rfl, fun _ => ⟨v, rfl⟩,
      fun ctx h s => timeSelf_no_assertion_failure ctx h s v⟩

/-- Witness for C10: the broadcast of `saveEvent` in a fresh session. -/
theorem published_topic_is_handled_witness :
    ∃ f, selfHandlers.lookup "status" = some f ∧
      (("status" = "status" ∨ "status" = "time") → ∃ v, Value.str ("" ++ ": " ++ "hi") = .str v) ∧
      ∀ ctx h s, (f ctx h s (.str ("" ++ ": " ++ "hi"))).result ≠ .panicked .typeAssertion :=
  published_topic_is_handled "status" (.str ("" ++ ": " ++ "hi"))
    (Or.inl ⟨"save", saveEvent, ⟨[]⟩, [], ⟨.nil⟩, ⟨fun _ => "hi", fun _ => ⟨0⟩⟩,
      by simp [eventHandlers], by decide⟩)

/-- C9: a freshly mounted session that processes, in order, any finite
sequence of client events and self-messages whose `status` and `time` payloads
are strings ends with a Snapshot whose Revision is 1 plus the number of
`reload` self-messages (provided that number does not overflow `int`) and
whose Status is the payload of the last `status` self-message, or empty when
there is none. -/
theorem run_revision_and_status (ctx : Context) (evs : List Event)
    (hstr : stringPayloads evs) (hov : 1 + (reloadCount evs : Int) < 2 ^ 63) :
    ∃ m, snapshot (Session.run ctx (Session.mount ctx) evs).heap
          (Session.run ctx (Session.mount ctx) evs).socket = some m ∧
      m.LiveReload.Revision = 1 + (reloadCount evs : Int) ∧
      m.Status = lastStatus "" evs := by
  have hmount : Session.mount ctx = ⟨[defaultModel ctx], ⟨.thermoPtr 0⟩⟩ := rfl
  have h0 : ([defaultModel ctx] : Heap)[0]? = some (defaultModel ctx) := rfl
  obtain ⟨h1, m1, hrun, hm1, hrev, hst⟩ :=
    run_from_valid ctx evs [defaultModel ctx] 0 (defaultModel ctx) h0 hstr
      (by simp [defaultModel]) (by simpa [defaultModel] using hov)
  refine ⟨m1, ?_, ?_, ?_⟩
  · rw [hmount, hrun]
    exact hm1
  · rw [hrev]
    simp [defaultModel]
  · rw [hst]
    simp [defaultModel]

/-- Witness for C9: a click, two reloads and two status messages. -/
theorem run_revision_and_status_witness :
    ∃ m, snapshot (Session.run ⟨[("name", "ann")]⟩ (Session.mount ⟨[("name", "ann")]⟩)
            [.client "temp-up" ⟨fun _ => "", fun _ => ⟨0⟩⟩, .self "reload" .nil,
              .self "status" (.str "a"), .self "reload" .nil,
              .self "status" (.str "b")]).heap
          (Session.run ⟨[("name", "ann")]⟩ (Session.mount ⟨[("name", "ann")]⟩)
            [.client "temp-up" ⟨fun _ => "", fun _ => ⟨0⟩⟩, .self "reload" .nil,
              .self "status" (.str "a"), .self "reload" .nil,
              .self "status" (.str "b")]).socket = some m ∧
      m.LiveReload.Revision = 1 + ((2 : Nat) : Int) ∧ m.Status = "b" :=
  run_revision_and_status ⟨[("name", "ann")]⟩
    [.client "temp-up" ⟨fun _ => "", fun _ => ⟨0⟩⟩, .self "reload" .nil,
      .self "status" (.str "a"), .self "reload" .nil, .self "status" (.str "b")]
    (by simp [stringPayloads]) (by simp [reloadCount])

end Thermo
